import Mathlib

/-!
A shallow embedding of `flyControler.c` from the RaspberryPilot project.

C `float` arithmetic is modelled exactly over `ℚ`: every claim under
consideration is about the algebraic structure of the computations
(which clamps are applied, sign tables, gating), not about rounding.
The module's file-scope mutable globals become the fields of `FlyState`;
every external collaborator (sensor getters, platform limits, the
generic PID primitive, the altitude-hold gate) becomes a field of `Env`.
The PID primitive's internal integral/derivative bookkeeping is out of
scope (an external collaborator), so `pidCalculation` is an
uninterpreted function of the controller's identity, its current
setpoint, the measurement, and the three term-enable flags.
-/

namespace FlyControler

/-- The four motors of the X-configuration quad (`SOFT_PWM_CCW1`,
`SOFT_PWM_CCW2`, `SOFT_PWM_CW1`, `SOFT_PWM_CW2`). -/
inductive Motor where
  | ccw1
  | ccw2
  | cw1
  | cw2
  deriving DecidableEq, Repr

/-- The nine PID controller instances referenced by `flyControler.c`
(`rollAttitudePidSettings`, ..., `verticalAccelPidSettings`). -/
inductive PidId where
  | rollAttitude
  | pitchAttitude
  | yawAttitude
  | rollRate
  | pitchRate
  | yawRate
  | altHoldAlt
  | altHoldSpeed
  | verticalAccel
  deriving DecidableEq, Repr

/-- The file-scope mutable state of `flyControler.c`, together with the
setpoint field of each PID controller (`setPidSp` targets) and the
per-motor gains of the motor-control module (the spec's ControlState
lists `motorGain[4]`). -/
structure FlyState where
  leaveFlyControler : Bool
  rollAttitudeOutput : ℚ
  pitchAttitudeOutput : ℚ
  yawAttitudeOutput : ℚ
  altHoltAltOutput : ℚ
  adjustPeriod : ℕ
  angularLimit : ℚ
  gyroLimit : ℚ
  yawCenterPoint : ℚ
  maxThrottleOffset : ℚ
  altitudePidOutputLimitation : ℚ
  sp : PidId → ℚ
  motorGain : Motor → ℚ

/-- The external collaborators consumed during one control tick:
orientation and rate estimates, altitude subsystem, platform limits,
and the opaque PID evaluation. `pidCalculation c sp pv pE iE dE` is the
value returned by the C `pidCalculation(&c, pv, pE, iE, dE)` when the
controller's setpoint field holds `sp`. -/
structure Env where
  roll : ℚ
  pitch : ℚ
  yaw : ℚ
  rollGyro : ℚ
  pitchGyro : ℚ
  yawGyro : ℚ
  currentAltHoldAltitude : ℚ
  targetAlt : ℚ
  altholdSpeed : ℚ
  verticalAcceleration : ℚ
  enableAltHold : Bool
  altHoldIsReady : Bool
  updateAltHold : Bool
  throttlePowerLevel : ℚ
  adjustPowerLeveRange : ℚ
  maxPowerLeve : ℚ
  minPowerLevel : ℚ
  pidOutputLimitation : ℚ
  pidCalculation : PidId → ℚ → ℚ → Bool → Bool → Bool → ℚ

/-- Modelled from the spec: the saturating clamp macro
`LIMIT_MIN_MAX_VALUE` of `commonLib.h` (not under `src/`); the spec
(§7) describes every clamp as silent saturation of out-of-range values
into `[min, max]`. -/
def LIMIT_MIN_MAX_VALUE (v lo hi : ℚ) : ℚ :=
  if v < lo then lo else if hi < v then hi else v

/-- Modelled from the spec: `setPidSp` of the external PID primitive
(`pid.c`, not under `src/`) "mutates only the setpoint field" (§6). -/
def setPidSp (s : FlyState) (i : PidId) (v : ℚ) : FlyState :=
  { s with sp := fun j => if j = i then v else s.sp j }

/-- Modelled from the spec: `setMotorGain` of the motor-control module
(not under `src/`); the spec's ControlState holds `motorGain[4]`, one
multiplicative gain per motor, and its setters are pure writes (§4.1). -/
def setMotorGain (s : FlyState) (m : Motor) (v : ℚ) : FlyState :=
  { s with motorGain := fun j => if j = m then v else s.motorGain j }

/-- `#define DEFAULT_ADJUST_PERIOD 1` -/
def DEFAULT_ADJUST_PERIOD : ℕ := 1

/-- `#define DEFAULT_GYRO_LIMIT 50` -/
def DEFAULT_GYRO_LIMIT : ℚ := 50

/-- `#define DEFAULT_ANGULAR_LIMIT 5000` -/
def DEFAULT_ANGULAR_LIMIT : ℚ := 5000

/-- `setLeaveFlyControlerFlag` (flyControler.c:111). -/
def setLeaveFlyControlerFlag (s : FlyState) (v : Bool) : FlyState :=
  { s with leaveFlyControler := v }

/-- `getLeaveFlyControlerFlag` (flyControler.c:125). -/
def getLeaveFlyControlerFlag (s : FlyState) : Bool :=
  s.leaveFlyControler

/-- `setGyroLimit` (flyControler.c:401). -/
def setGyroLimit (s : FlyState) (limitation : ℚ) : FlyState :=
  { s with gyroLimit := limitation }

/-- `getGyroLimit` (flyControler.c:416). -/
def getGyroLimit (s : FlyState) : ℚ :=
  s.gyroLimit

/-- `setAdjustPeriod` (flyControler.c:431); the C argument is an
`unsigned short`, modelled as `ℕ` (no call site overflows). -/
def setAdjustPeriod (s : FlyState) (period : ℕ) : FlyState :=
  { s with adjustPeriod := period }

/-- `getAdjustPeriod` (flyControler.c:446). -/
def getAdjustPeriod (s : FlyState) : ℕ :=
  s.adjustPeriod

/-- `setAngularLimit` (flyControler.c:461). -/
def setAngularLimit (s : FlyState) (angular : ℚ) : FlyState :=
  { s with angularLimit := angular }

/-- `getAngularLimit` (flyControler.c:475). -/
def getAngularLimit (s : FlyState) : ℚ :=
  s.angularLimit

/-- `setAltitudePidOutputLimitation` (flyControler.c:489). -/
def setAltitudePidOutputLimitation (s : FlyState) (v : ℚ) : FlyState :=
  { s with altitudePidOutputLimitation := v }

/-- `getAltitudePidOutputLimitation` (flyControler.c:503). -/
def getAltitudePidOutputLimitation (s : FlyState) : ℚ :=
  s.altitudePidOutputLimitation

/-- `setYawCenterPoint` (flyControler.c:345): a single ±360 wrap of the
argument into [-180, 180], then store. -/
def setYawCenterPoint (s : FlyState) (point : ℚ) : FlyState :=
  let yawCenterPoint1 := point
  let yawCenterPoint2 :=
    if yawCenterPoint1 > 180 then yawCenterPoint1 - 360
    else if yawCenterPoint1 < -180 then yawCenterPoint1 + 360
    else yawCenterPoint1
  { s with yawCenterPoint := yawCenterPoint2 }

/-- `getYawCenterPoint` (flyControler.c:366). -/
def getYawCenterPoint (s : FlyState) : ℚ :=
  s.yawCenterPoint

/-- `yawTransform` (flyControler.c:380): subtract the recorded center
point and apply a single ±360 wrap. -/
def yawTransform (s : FlyState) (originPoint : ℚ) : ℚ :=
  let output := originPoint - s.yawCenterPoint
  if output > 180 then output - 360
  else if output < -180 then output + 360
  else output

/-- `flyControlerInit` (flyControler.c:75). `lockInitOk` stands for
`pthread_mutex_init(&controlMotorMutex, NULL) == 0`; on failure the
function returns false before mutating anything. The call to
`disenableFlySystem()` targets the external system-control module and
is outside the modelled state. -/
def flyControlerInit (lockInitOk : Bool) (s : FlyState) : Bool × FlyState :=
  if !lockInitOk then (false, s)
  else
    let s1 := setLeaveFlyControlerFlag s false
    let s2 := setAdjustPeriod s1 DEFAULT_ADJUST_PERIOD
    let s3 := setGyroLimit s2 DEFAULT_GYRO_LIMIT
    let s4 := setAngularLimit s3 DEFAULT_ANGULAR_LIMIT
    let s5 := setMotorGain s4 .ccw1 1
    let s6 := setMotorGain s5 .cw1 1
    let s7 := setMotorGain s6 .ccw2 1
    let s8 := setMotorGain s7 .cw2 1
    let s9 := setAltitudePidOutputLimitation s8 15
    (true,
      { s9 with
        rollAttitudeOutput := 0
        pitchAttitudeOutput := 0
        yawAttitudeOutput := 0
        altHoltAltOutput := 0
        maxThrottleOffset := 1000 })

/-- `getAttitudePidOutput` (flyControler.c:139): for each axis, the
attitude PID evaluation (yaw measurement first passed through
`yawTransform`) clamped to `[-gyroLimit, +gyroLimit]` is stored into
the corresponding file-scope output. -/
def getAttitudePidOutput (env : Env) (s : FlyState) : FlyState :=
  { s with
    rollAttitudeOutput :=
      LIMIT_MIN_MAX_VALUE
        (env.pidCalculation .rollAttitude (s.sp .rollAttitude) env.roll true true true)
        (-(getGyroLimit s)) (getGyroLimit s)
    pitchAttitudeOutput :=
      LIMIT_MIN_MAX_VALUE
        (env.pidCalculation .pitchAttitude (s.sp .pitchAttitude) env.pitch true true true)
        (-(getGyroLimit s)) (getGyroLimit s)
    yawAttitudeOutput :=
      LIMIT_MIN_MAX_VALUE
        (env.pidCalculation .yawAttitude (s.sp .yawAttitude) (yawTransform s env.yaw) true true true)
        (-(getGyroLimit s)) (getGyroLimit s) }

/-- `getRatePidOutput` (flyControler.c:171): set each rate controller's
setpoint to the corresponding attitude-stage output, then return the
three raw rate PID evaluations. -/
def getRatePidOutput (env : Env) (s : FlyState) : FlyState × (ℚ × ℚ × ℚ) :=
  let s1 := setPidSp s .rollRate s.rollAttitudeOutput
  let s2 := setPidSp s1 .pitchRate s1.pitchAttitudeOutput
  let s3 := setPidSp s2 .yawRate s2.yawAttitudeOutput
  (s3,
    (env.pidCalculation .rollRate (s3.sp .rollRate) env.rollGyro true true true,
     env.pidCalculation .pitchRate (s3.sp .pitchRate) env.pitchGyro true true true,
     env.pidCalculation .yawRate (s3.sp .yawRate) env.yawGyro true true true))

/-- `getAltHoldAltPidOutput` (flyControler.c:517): the altitude PID
evaluated on `(currentAltitude - targetAltitude)`, clamped to the
altitude-PID output limitation, stored into `altHoltAltOutput`. -/
def getAltHoldAltPidOutput (env : Env) (s : FlyState) : FlyState :=
  { s with
    altHoltAltOutput :=
      LIMIT_MIN_MAX_VALUE
        (env.pidCalculation .altHoldAlt (s.sp .altHoldAlt)
          (env.currentAltHoldAltitude - env.targetAlt) true true true)
        (-(getAltitudePidOutputLimitation s)) (getAltitudePidOutputLimitation s) }

/-- `getAltHoldSpeedPidOutput` (flyControler.c:539): set the
vertical-speed controller's setpoint to `altHoltAltOutput`, then return
the raw speed PID evaluation. -/
def getAltHoldSpeedPidOutput (env : Env) (s : FlyState) : FlyState × ℚ :=
  let s1 := setPidSp s .altHoldSpeed s.altHoltAltOutput
  (s1,
    env.pidCalculation .altHoldSpeed (s1.sp .altHoldSpeed) env.altholdSpeed true true true)

/-- `getThrottleOffsetByAltHold` (flyControler.c:557): when the update
gate is set, run the two-stage cascade and clamp the result to
`[-maxThrottleOffset, +maxThrottleOffset]`; otherwise return 0 without
touching any state. -/
def getThrottleOffsetByAltHold (env : Env) (s : FlyState)
    (updateAltHoldOffset : Bool) : FlyState × ℚ :=
  if updateAltHoldOffset then
    let s1 := getAltHoldAltPidOutput env s
    let r := getAltHoldSpeedPidOutput env s1
    (r.1, LIMIT_MIN_MAX_VALUE r.2 (-(r.1.maxThrottleOffset)) r.1.maxThrottleOffset)
  else (s, 0)

/-- `getThrottleOffsetByAcceleration` (flyControler.c:584): set the
vertical-acceleration controller's setpoint to 0, evaluate it on the
measured vertical acceleration, and clamp the result to
`[-maxThrottleOffset, +maxThrottleOffset]`. -/
def getThrottleOffsetByAcceleration (env : Env) (s : FlyState) : FlyState × ℚ :=
  let s1 := setPidSp s .verticalAccel 0
  (s1,
    LIMIT_MIN_MAX_VALUE
      (env.pidCalculation .verticalAccel (s1.sp .verticalAccel)
        env.verticalAcceleration true true true)
      (-(s1.maxThrottleOffset)) s1.maxThrottleOffset)

/-- The conditional at flyControler.c:232: the altitude-hold throttle
offset is computed only when altitude hold is enabled and ready,
passing the external period gate `updateAltHold()` down; otherwise it
is 0 and `getThrottleOffsetByAltHold` is not called at all. -/
def altholdThrottleOffsetStep (env : Env) (s : FlyState) : FlyState × ℚ :=
  if env.enableAltHold && env.altHoldIsReady then
    getThrottleOffsetByAltHold env s env.updateAltHold
  else (s, 0)

/-- The C cast `(unsigned short)` applied at flyControler.c:322-325 to a
non-negative in-range float truncates toward zero, which agrees with
`Rat.floor` there; a negative or out-of-range operand is undefined
behaviour in C. -/
def toUShort (q : ℚ) : ℕ :=
  (Rat.floor q).toNat

/-- The twelve per-motor, per-axis correction assignments of
flyControler.c:259-298 and the three-term sums of lines 300-311: the
pre-gain correction of each motor before the combined clamp. -/
def preGainCorrection (rollRateOutput pitchRateOutput yawRateOutput : ℚ)
    (m : Motor) : ℚ :=
  let rollCcw1 := rollRateOutput
  let rollCcw2 := -rollRateOutput
  let rollCw1 := -rollRateOutput
  let rollCw2 := rollRateOutput
  let pitchCcw1 := -pitchRateOutput
  let pitchCcw2 := pitchRateOutput
  let pitchCw1 := -pitchRateOutput
  let pitchCw2 := pitchRateOutput
  let yawCcw1 := yawRateOutput
  let yawCcw2 := yawRateOutput
  let yawCw1 := -yawRateOutput
  let yawCw2 := -yawRateOutput
  match m with
  | .ccw1 => rollCcw1 + pitchCcw1 + yawCcw1
  | .ccw2 => rollCcw2 + pitchCcw2 + yawCcw2
  | .cw1 => rollCw1 + pitchCw1 + yawCw1
  | .cw2 => rollCw2 + pitchCw2 + yawCw2

/-- `motorControler` (flyControler.c:200): one full control tick,
returning the final state and the four truncated motor power levels. -/
def motorControler (env : Env) (s : FlyState) : FlyState × (Motor → ℕ) :=
  let altholdThrottleOffset := (altholdThrottleOffsetStep env s).2
  let sA := (altholdThrottleOffsetStep env s).1
  let accelThrottleOffset := (getThrottleOffsetByAcceleration env sA).2
  let sB := (getThrottleOffsetByAcceleration env sA).1
  let throttleOffset := altholdThrottleOffset + accelThrottleOffset
  let centerThrottle := env.throttlePowerLevel + throttleOffset
  let maxLimit := min (centerThrottle + env.adjustPowerLeveRange) env.maxPowerLeve
  let minLimit := max (centerThrottle - env.adjustPowerLeveRange) env.minPowerLevel
  let sC := getAttitudePidOutput env sB
  let rRate := getRatePidOutput env sC
  let sD := rRate.1
  let rollRateOutput := rRate.2.1
  let pitchRateOutput := rRate.2.2.1
  let yawRateOutput := rRate.2.2.2
  let outCcw1 := centerThrottle
    + LIMIT_MIN_MAX_VALUE (preGainCorrection rollRateOutput pitchRateOutput yawRateOutput .ccw1)
        (-env.pidOutputLimitation) env.pidOutputLimitation
  let outCcw2 := centerThrottle
    + LIMIT_MIN_MAX_VALUE (preGainCorrection rollRateOutput pitchRateOutput yawRateOutput .ccw2)
        (-env.pidOutputLimitation) env.pidOutputLimitation
  let outCw1 := centerThrottle
    + LIMIT_MIN_MAX_VALUE (preGainCorrection rollRateOutput pitchRateOutput yawRateOutput .cw1)
        (-env.pidOutputLimitation) env.pidOutputLimitation
  let outCw2 := centerThrottle
    + LIMIT_MIN_MAX_VALUE (preGainCorrection rollRateOutput pitchRateOutput yawRateOutput .cw2)
        (-env.pidOutputLimitation) env.pidOutputLimitation
  let finCcw1 := sD.motorGain .ccw1 * LIMIT_MIN_MAX_VALUE outCcw1 minLimit maxLimit
  let finCcw2 := sD.motorGain .ccw2 * LIMIT_MIN_MAX_VALUE outCcw2 minLimit maxLimit
  let finCw1 := sD.motorGain .cw1 * LIMIT_MIN_MAX_VALUE outCw1 minLimit maxLimit
  let finCw2 := sD.motorGain .cw2 * LIMIT_MIN_MAX_VALUE outCw2 minLimit maxLimit
  (sD, fun m =>
    match m with
    | .ccw1 => toUShort finCcw1
    | .ccw2 => toUShort finCcw2
    | .cw1 => toUShort finCw1
    | .cw2 => toUShort finCw2)

/-- Observable synchronization and hardware-write events of the motor
actuation path: operations on `controlMotorMutex` and per-motor
power-level writes. -/
inductive MEvent where
  | lock
  | unlock
  | write (m : Motor) (v : ℕ)
  deriving DecidableEq, Repr

/-- Modelled from the spec: `setupCcw1MotorPoewrLevel` and its three
siblings live in the motor-control module, which is not under `src/`.
Spec §5 requires the hardware-facing write to be guarded by the
exclusive lock `controlMotorMutex` shared with the
emergency-stop/disable path; since `motorControler`
(flyControler.c:322-325, which is under `src/`) calls the four
functions one after another while holding no lock of its own, the most
the sink can do is acquire and release the lock around each individual
write, which is what this definition models. In particular the lock is
released between the four writes of one motor command. -/
def setupMotorPoewrLevel (m : Motor) (v : ℕ) : List MEvent :=
  [MEvent.lock, MEvent.write m v, MEvent.unlock]

/-- The event trace of the four motor-command writes issued at
flyControler.c:322-325, in source order. -/
def motorControlerTrace (env : Env) (s : FlyState) : List MEvent :=
  let out := (motorControler env s).2
  setupMotorPoewrLevel .ccw1 (out .ccw1)
    ++ setupMotorPoewrLevel .ccw2 (out .ccw2)
    ++ setupMotorPoewrLevel .cw1 (out .cw1)
    ++ setupMotorPoewrLevel .cw2 (out .cw2)

/-- The hold depth of `controlMotorMutex` after processing a trace of
events, starting from the given depth. -/
def lockDepth : ℕ → List MEvent → ℕ
  | d, [] => d
  | d, MEvent.lock :: r => lockDepth (d + 1) r
  | d, MEvent.unlock :: r => lockDepth (d - 1) r
  | d, MEvent.write _ _ :: r => lockDepth d r

/-- The per-motor write values extracted from a trace, in order. -/
def eventWrites : List MEvent → List (Motor × ℕ)
  | [] => []
  | MEvent.write m v :: r => (m, v) :: eventWrites r
  | _ :: r => eventWrites r

/-- The mutating operations exposed by this module after
initialization: the configuration setters, the gain setter the spec
lists with this core's configuration interface, the full control tick,
and the rate-stage accessor (which mutates the rate setpoints). -/
inductive Op where
  | setLeaveFlyControlerFlag (v : Bool)
  | setYawCenterPoint (p : ℚ)
  | setGyroLimit (v : ℚ)
  | setAdjustPeriod (v : ℕ)
  | setAngularLimit (v : ℚ)
  | setAltitudePidOutputLimitation (v : ℚ)
  | setPidSp (i : PidId) (v : ℚ)
  | setMotorGain (m : Motor) (v : ℚ)
  | motorControler (env : Env)
  | getRatePidOutput (env : Env)

/-- The state transformation performed by each exposed operation. -/
def applyOp (op : Op) (s : FlyState) : FlyState :=
  match op with
  | .setLeaveFlyControlerFlag v => setLeaveFlyControlerFlag s v
  | .setYawCenterPoint p => setYawCenterPoint s p
  | .setGyroLimit v => setGyroLimit s v
  | .setAdjustPeriod v => setAdjustPeriod s v
  | .setAngularLimit v => setAngularLimit s v
  | .setAltitudePidOutputLimitation v => setAltitudePidOutputLimitation s v
  | .setPidSp i v => setPidSp s i v
  | .setMotorGain m v => setMotorGain s m v
  | .motorControler env => (motorControler env s).1
  | .getRatePidOutput env => (getRatePidOutput env s).1

/-- A concrete quiescent state, used to instantiate universally
quantified theorems on explicit inputs. -/
def s0 : FlyState where
  leaveFlyControler := false
  rollAttitudeOutput := 0
  pitchAttitudeOutput := 0
  yawAttitudeOutput := 0
  altHoltAltOutput := 0
  adjustPeriod := 0
  angularLimit := 0
  gyroLimit := 0
  yawCenterPoint := 0
  maxThrottleOffset := 0
  altitudePidOutputLimitation := 0
  sp := fun _ => 0
  motorGain := fun _ => 0

/-- A concrete environment with all measurements zero and a PID
primitive that always returns 0, used to instantiate universally
quantified theorems on explicit inputs. -/
def env0 : Env where
  roll := 0
  pitch := 0
  yaw := 0
  rollGyro := 0
  pitchGyro := 0
  yawGyro := 0
  currentAltHoldAltitude := 0
  targetAlt := 0
  altholdSpeed := 0
  verticalAcceleration := 0
  enableAltHold := true
  altHoldIsReady := true
  updateAltHold := true
  throttlePowerLevel := 0
  adjustPowerLeveRange := 0
  maxPowerLeve := 0
  minPowerLevel := 0
  pidOutputLimitation := 0
  pidCalculation := fun _ _ _ _ _ _ => 0

theorem LIMIT_MIN_MAX_VALUE_mem (v lo hi : ℚ) (h : lo ≤ hi) :
    lo ≤ LIMIT_MIN_MAX_VALUE v lo hi ∧ LIMIT_MIN_MAX_VALUE v lo hi ≤ hi := by
  unfold LIMIT_MIN_MAX_VALUE
  split_ifs with h1 h2 <;> constructor <;> linarith

/-- C1: for every roll rate output R, pitch rate output P and yaw rate
output Y of the rate stage, the four pre-gain per-motor corrections
computed by `motorControler` before the combined clamp are exactly
`R - P + Y` (CCW1), `-R + P + Y` (CCW2), `-R - P - Y` (CW1) and
`R + P - Y` (CW2), conforming to the fixed sign table. -/
theorem preGainCorrection_sign_table (R P Y : ℚ) :
    preGainCorrection R P Y .ccw1 = R - P + Y
    ∧ preGainCorrection R P Y .ccw2 = -R + P + Y
    ∧ preGainCorrection R P Y .cw1 = -R - P - Y
    ∧ preGainCorrection R P Y .cw2 = R + P - Y := by
  refine ⟨?_, ?_, ?_, ?_⟩ <;> simp [preGainCorrection] <;> ring

/-- C7 counterexample: at the explicit raw yaw 600 with the center
point at 0, `yawTransform` returns 240, which does not lie in
[-180, 180]: the single ±360 wrap step cannot bring a difference
beyond 540 back into range, so the claim as stated is false. -/
theorem yawTransform_range_counterexample :
    ¬ ((-180 : ℚ) ≤ yawTransform s0 600 ∧ yawTransform s0 600 ≤ 180) := by
  norm_num [yawTransform, s0]

/-- C7 (amended): for every state and raw yaw value whose difference
from the recorded center point lies in [-540, 540], `yawTransform`
returns a value in [-180, 180]; and whenever that difference already
lies in [-180, 180], the result equals it exactly, the wrap being a
no-op. Purity is visible in the type: `yawTransform` consumes the
state and returns only a rational, modifying nothing. -/
theorem yawTransform_spec_amended (s : FlyState) (y : ℚ) :
    (-540 ≤ y - s.yawCenterPoint → y - s.yawCenterPoint ≤ 540 →
      -180 ≤ yawTransform s y ∧ yawTransform s y ≤ 180)
    ∧ (-180 ≤ y - s.yawCenterPoint → y - s.yawCenterPoint ≤ 180 →
      yawTransform s y = y - s.yawCenterPoint) := by
  simp only [yawTransform]
  constructor
  · intro h1 h2
    split_ifs <;> constructor <;> linarith
  · intro h1 h2
    split_ifs <;> linarith

theorem yawTransform_spec_amended_witness :
    ((-180 : ℚ) ≤ yawTransform s0 200 ∧ yawTransform s0 200 ≤ 180)
    ∧ yawTransform s0 30 = 30 - s0.yawCenterPoint :=
  ⟨(yawTransform_spec_amended s0 200).1 (by norm_num [s0]) (by norm_num [s0]),
   (yawTransform_spec_amended s0 30).2 (by norm_num [s0]) (by norm_num [s0])⟩

/-- C8: for every p in [-540, 540], `setYawCenterPoint p` followed by
`getYawCenterPoint` yields a value in [-180, 180] equal to p corrected
by a single ±360 wrap step: p - 360 if p > 180, p + 360 if p < -180,
and p unchanged otherwise, the boundaries ±180 themselves left
unwrapped. -/
theorem setYawCenterPoint_wrap (s : FlyState) (p : ℚ)
    (h1 : -540 ≤ p) (h2 : p ≤ 540) :
    (-180 ≤ getYawCenterPoint (setYawCenterPoint s p)
      ∧ getYawCenterPoint (setYawCenterPoint s p) ≤ 180)
    ∧ getYawCenterPoint (setYawCenterPoint s p)
      = (if 180 < p then p - 360 else if p < -180 then p + 360 else p) := by
  simp only [setYawCenterPoint, getYawCenterPoint]
  constructor
  · split_ifs <;> constructor <;> linarith
  · trivial

theorem setYawCenterPoint_wrap_witness :
    ((-180 : ℚ) ≤ getYawCenterPoint (setYawCenterPoint s0 250)
      ∧ getYawCenterPoint (setYawCenterPoint s0 250) ≤ 180)
    ∧ getYawCenterPoint (setYawCenterPoint s0 250)
      = (if (180 : ℚ) < 250 then (250 : ℚ) - 360
         else if (250 : ℚ) < -180 then (250 : ℚ) + 360 else 250) :=
  setYawCenterPoint_wrap s0 250 (by norm_num) (by norm_num)

@[simp]
theorem setPidSp_maxThrottleOffset (s : FlyState) (i : PidId) (v : ℚ) :
    (setPidSp s i v).maxThrottleOffset = s.maxThrottleOffset := rfl

@[simp]
theorem setPidSp_motorGain (s : FlyState) (i : PidId) (v : ℚ) :
    (setPidSp s i v).motorGain = s.motorGain := rfl

@[simp]
theorem getAltHoldAltPidOutput_maxThrottleOffset (env : Env) (s : FlyState) :
    (getAltHoldAltPidOutput env s).maxThrottleOffset = s.maxThrottleOffset := rfl

@[simp]
theorem getAltHoldAltPidOutput_motorGain (env : Env) (s : FlyState) :
    (getAltHoldAltPidOutput env s).motorGain = s.motorGain := rfl

@[simp]
theorem getAltHoldSpeedPidOutput_maxThrottleOffset (env : Env) (s : FlyState) :
    (getAltHoldSpeedPidOutput env s).1.maxThrottleOffset = s.maxThrottleOffset := rfl

@[simp]
theorem getAltHoldSpeedPidOutput_motorGain (env : Env) (s : FlyState) :
    (getAltHoldSpeedPidOutput env s).1.motorGain = s.motorGain := rfl

@[simp]
theorem getThrottleOffsetByAltHold_maxThrottleOffset (env : Env) (s : FlyState) (u : Bool) :
    (getThrottleOffsetByAltHold env s u).1.maxThrottleOffset = s.maxThrottleOffset := by
  cases u <;> simp [getThrottleOffsetByAltHold, getAltHoldSpeedPidOutput]

@[simp]
theorem getThrottleOffsetByAltHold_motorGain (env : Env) (s : FlyState) (u : Bool) :
    (getThrottleOffsetByAltHold env s u).1.motorGain = s.motorGain := by
  cases u <;> simp [getThrottleOffsetByAltHold, getAltHoldSpeedPidOutput]

@[simp]
theorem altholdThrottleOffsetStep_maxThrottleOffset (env : Env) (s : FlyState) :
    (altholdThrottleOffsetStep env s).1.maxThrottleOffset = s.maxThrottleOffset := by
  unfold altholdThrottleOffsetStep
  split <;> simp

@[simp]
theorem altholdThrottleOffsetStep_motorGain (env : Env) (s : FlyState) :
    (altholdThrottleOffsetStep env s).1.motorGain = s.motorGain := by
  unfold altholdThrottleOffsetStep
  split <;> simp

@[simp]
theorem getThrottleOffsetByAcceleration_maxThrottleOffset (env : Env) (s : FlyState) :
    (getThrottleOffsetByAcceleration env s).1.maxThrottleOffset = s.maxThrottleOffset := rfl

@[simp]
theorem getThrottleOffsetByAcceleration_motorGain (env : Env) (s : FlyState) :
    (getThrottleOffsetByAcceleration env s).1.motorGain = s.motorGain := rfl

@[simp]
theorem getAttitudePidOutput_maxThrottleOffset (env : Env) (s : FlyState) :
    (getAttitudePidOutput env s).maxThrottleOffset = s.maxThrottleOffset := rfl

@[simp]
theorem getAttitudePidOutput_motorGain (env : Env) (s : FlyState) :
    (getAttitudePidOutput env s).motorGain = s.motorGain := rfl

@[simp]
theorem getRatePidOutput_maxThrottleOffset (env : Env) (s : FlyState) :
    (getRatePidOutput env s).1.maxThrottleOffset = s.maxThrottleOffset := rfl

@[simp]
theorem getRatePidOutput_motorGain (env : Env) (s : FlyState) :
    (getRatePidOutput env s).1.motorGain = s.motorGain := rfl

/-- C3: on every tick, each attitude-stage output stored into the
shared state equals the corresponding attitude PID evaluation clamped
to `[-gyroLimit, +gyroLimit]`, the yaw measurement first passed through
`yawTransform`; and `getRatePidOutput` sets each rate controller's
setpoint to the corresponding stored attitude-stage output and returns
each rate PID evaluation raw, with no per-axis clamp applied. -/
theorem attitude_rate_stage_spec (env : Env) (s : FlyState) :
    ((getAttitudePidOutput env s).rollAttitudeOutput
        = LIMIT_MIN_MAX_VALUE
            (env.pidCalculation .rollAttitude (s.sp .rollAttitude) env.roll true true true)
            (-s.gyroLimit) s.gyroLimit
      ∧ (getAttitudePidOutput env s).pitchAttitudeOutput
        = LIMIT_MIN_MAX_VALUE
            (env.pidCalculation .pitchAttitude (s.sp .pitchAttitude) env.pitch true true true)
            (-s.gyroLimit) s.gyroLimit
      ∧ (getAttitudePidOutput env s).yawAttitudeOutput
        = LIMIT_MIN_MAX_VALUE
            (env.pidCalculation .yawAttitude (s.sp .yawAttitude)
              (yawTransform s env.yaw) true true true)
            (-s.gyroLimit) s.gyroLimit)
    ∧ ((getRatePidOutput env s).1.sp .rollRate = s.rollAttitudeOutput
      ∧ (getRatePidOutput env s).1.sp .pitchRate = s.pitchAttitudeOutput
      ∧ (getRatePidOutput env s).1.sp .yawRate = s.yawAttitudeOutput
      ∧ (getRatePidOutput env s).2.1
        = env.pidCalculation .rollRate s.rollAttitudeOutput env.rollGyro true true true
      ∧ (getRatePidOutput env s).2.2.1
        = env.pidCalculation .pitchRate s.pitchAttitudeOutput env.pitchGyro true true true
      ∧ (getRatePidOutput env s).2.2.2
        = env.pidCalculation .yawRate s.yawAttitudeOutput env.yawGyro true true true) := by
  refine ⟨⟨?_, ?_, ?_⟩, ?_, ?_, ?_, ?_, ?_, ?_⟩ <;>
    simp [getAttitudePidOutput, getRatePidOutput, setPidSp, getGyroLimit]

/-- C4: when altitude hold is disabled, or the altitude subsystem is
not ready, or the period gate reports no update due, the altitude-hold
throttle contribution is exactly 0 (and the cached altitude output and
the speed controller's setpoint are untouched); when all three
conditions hold, it is the two-stage cascade: the altitude PID on
`(currentAltitude - targetAltitude)` clamped to the altitude-PID
output limitation and stored into `altHoltAltOutput`, then the
vertical-speed PID with its setpoint set to that value, its output
clamped to `[-maxThrottleOffset, +maxThrottleOffset]`. -/
theorem altHold_offset_gating (env : Env) (s : FlyState) :
    (altholdThrottleOffsetStep env s).2
      = (if env.enableAltHold && env.altHoldIsReady && env.updateAltHold then
          LIMIT_MIN_MAX_VALUE
            (env.pidCalculation .altHoldSpeed
              (LIMIT_MIN_MAX_VALUE
                (env.pidCalculation .altHoldAlt (s.sp .altHoldAlt)
                  (env.currentAltHoldAltitude - env.targetAlt) true true true)
                (-s.altitudePidOutputLimitation) s.altitudePidOutputLimitation)
              env.altholdSpeed true true true)
            (-s.maxThrottleOffset) s.maxThrottleOffset
        else 0)
    ∧ (altholdThrottleOffsetStep env s).1.altHoltAltOutput
      = (if env.enableAltHold && env.altHoldIsReady && env.updateAltHold then
          LIMIT_MIN_MAX_VALUE
            (env.pidCalculation .altHoldAlt (s.sp .altHoldAlt)
              (env.currentAltHoldAltitude - env.targetAlt) true true true)
            (-s.altitudePidOutputLimitation) s.altitudePidOutputLimitation
        else s.altHoltAltOutput)
    ∧ (altholdThrottleOffsetStep env s).1.sp .altHoldSpeed
      = (if env.enableAltHold && env.altHoldIsReady && env.updateAltHold then
          LIMIT_MIN_MAX_VALUE
            (env.pidCalculation .altHoldAlt (s.sp .altHoldAlt)
              (env.currentAltHoldAltitude - env.targetAlt) true true true)
            (-s.altitudePidOutputLimitation) s.altitudePidOutputLimitation
        else s.sp .altHoldSpeed) := by
  cases he : env.enableAltHold <;> cases hr : env.altHoldIsReady <;>
    cases hu : env.updateAltHold <;>
    simp [altholdThrottleOffsetStep, getThrottleOffsetByAltHold,
      getAltHoldAltPidOutput, getAltHoldSpeedPidOutput, setPidSp,
      getAltitudePidOutputLimitation, he, hr, hu]

/-- C6: on every tick, unconditionally (for every environment,
whatever its enable flags), the acceleration-compensation throttle
offset — both as computed by `getThrottleOffsetByAcceleration` and as
the value `motorControler` folds into the tick's throttle offset — is
the vertical-acceleration PID evaluated with setpoint 0 on the
measured vertical acceleration, clamped to
`[-maxThrottleOffset, +maxThrottleOffset]`. -/
theorem acceleration_offset_spec (env : Env) (s : FlyState) :
    (getThrottleOffsetByAcceleration env s).2
      = LIMIT_MIN_MAX_VALUE
          (env.pidCalculation .verticalAccel 0 env.verticalAcceleration true true true)
          (-s.maxThrottleOffset) s.maxThrottleOffset
    ∧ (getThrottleOffsetByAcceleration env s).1.sp .verticalAccel = 0
    ∧ (getThrottleOffsetByAcceleration env (altholdThrottleOffsetStep env s).1).2
      = LIMIT_MIN_MAX_VALUE
          (env.pidCalculation .verticalAccel 0 env.verticalAcceleration true true true)
          (-s.maxThrottleOffset) s.maxThrottleOffset := by
  refine ⟨?_, ?_, ?_⟩ <;> simp [getThrottleOffsetByAcceleration, setPidSp]

/-- C5: the code violates the claim. `motorControler` acquires no lock
of its own around the four setup calls of flyControler.c:322-325, so
even with each motor-control setup call guarding its own hardware
write with `controlMotorMutex`, the mutex is free again after the
first write of every tick while the other three writes are still
outstanding: the trace splits into a prefix carrying exactly one of
the four writes after which the lock depth is back to zero, followed
by the three remaining writes, so a halt request serialized on the
same mutex can interleave with a partially-written four-motor
command, contrary to the claim and to spec §5. -/
theorem motor_writes_group_interruptible (env : Env) (s : FlyState) :
    ∃ t1 t2,
      motorControlerTrace env s = t1 ++ t2
      ∧ (eventWrites t1).length = 1
      ∧ lockDepth 0 t1 = 0
      ∧ (eventWrites t2).length = 3 := by
  refine
    ⟨[MEvent.lock, MEvent.write .ccw1 ((motorControler env s).2 .ccw1), MEvent.unlock],
     [MEvent.lock, MEvent.write .ccw2 ((motorControler env s).2 .ccw2), MEvent.unlock,
      MEvent.lock, MEvent.write .cw1 ((motorControler env s).2 .cw1), MEvent.unlock,
      MEvent.lock, MEvent.write .cw2 ((motorControler env s).2 .cw2), MEvent.unlock],
     ?_, ?_, ?_, ?_⟩ <;>
    simp [motorControlerTrace, setupMotorPoewrLevel, eventWrites, lockDepth]

/-- C2: in `motorControler`, for every tick and every motor: the center
throttle is the external throttle power level plus the sum of the
altitude-hold and acceleration throttle offsets; the motor's
three-axis correction is clamped once, as a single sum, to
`[-pidOutputLimitation, +pidOutputLimitation]`; the motor output
`centerThrottle + clampedCorrection` is clamped to
`[minLimit, maxLimit]` with `minLimit = max(centerThrottle - range,
platformMin)` and `maxLimit = min(centerThrottle + range,
platformMax)`; and the delivered value is `motorGain[motor]` times that
clamped value, truncated to an unsigned integer. -/
theorem motorControler_output_formula (env : Env) (s : FlyState) (m : Motor) :
    (motorControler env s).2 m
      = (let altholdThrottleOffset := (altholdThrottleOffsetStep env s).2
         let sA := (altholdThrottleOffsetStep env s).1
         let accelThrottleOffset := (getThrottleOffsetByAcceleration env sA).2
         let centerThrottle :=
           env.throttlePowerLevel + (altholdThrottleOffset + accelThrottleOffset)
         let minLimit := max (centerThrottle - env.adjustPowerLeveRange) env.minPowerLevel
         let maxLimit := min (centerThrottle + env.adjustPowerLeveRange) env.maxPowerLeve
         let rpy := (getRatePidOutput env
           (getAttitudePidOutput env (getThrottleOffsetByAcceleration env sA).1)).2
         toUShort (s.motorGain m
           * LIMIT_MIN_MAX_VALUE
               (centerThrottle
                 + LIMIT_MIN_MAX_VALUE (preGainCorrection rpy.1 rpy.2.1 rpy.2.2 m)
                     (-env.pidOutputLimitation) env.pidOutputLimitation)
               minLimit maxLimit)) := by
  cases m <;> simp [motorControler]

/-- C9: `flyControlerInit` returns false exactly when initialization of
the motor-control lock fails (leaving the state untouched); on success
it returns true and sets the adjust period to 1, the gyro limit to 50,
the angular limit to 5000, the altitude-PID output limit to 15, all
four motor gains to 1, all cached stage outputs to 0, and clears the
halt flag. -/
theorem flyControlerInit_spec (ok : Bool) (s : FlyState) :
    ((flyControlerInit ok s).1 = false ↔ ok = false)
    ∧ (flyControlerInit false s).2 = s
    ∧ (flyControlerInit true s).2.adjustPeriod = 1
    ∧ (flyControlerInit true s).2.gyroLimit = 50
    ∧ (flyControlerInit true s).2.angularLimit = 5000
    ∧ (flyControlerInit true s).2.altitudePidOutputLimitation = 15
    ∧ (∀ m, (flyControlerInit true s).2.motorGain m = 1)
    ∧ (flyControlerInit true s).2.rollAttitudeOutput = 0
    ∧ (flyControlerInit true s).2.pitchAttitudeOutput = 0
    ∧ (flyControlerInit true s).2.yawAttitudeOutput = 0
    ∧ (flyControlerInit true s).2.altHoltAltOutput = 0
    ∧ (flyControlerInit true s).2.leaveFlyControler = false := by
  refine ⟨?_, ?_, ?_, ?_, ?_, ?_, ?_, ?_, ?_, ?_, ?_, ?_⟩
  · cases ok <;> simp [flyControlerInit]
  · simp [flyControlerInit]
  all_goals
    first
    | (intro m; cases m <;>
        simp [flyControlerInit, setLeaveFlyControlerFlag, setAdjustPeriod,
          setGyroLimit, setAngularLimit, setMotorGain,
          setAltitudePidOutputLimitation, DEFAULT_ADJUST_PERIOD,
          DEFAULT_GYRO_LIMIT, DEFAULT_ANGULAR_LIMIT])
    | simp [flyControlerInit, setLeaveFlyControlerFlag, setAdjustPeriod,
        setGyroLimit, setAngularLimit, setMotorGain,
        setAltitudePidOutputLimitation, DEFAULT_ADJUST_PERIOD,
        DEFAULT_GYRO_LIMIT, DEFAULT_ANGULAR_LIMIT]

/-- C10: after a successful `flyControlerInit`, `maxThrottleOffset`
equals 1000; no operation exposed by the module modifies it thereafter
(there is no setter for it); consequently, whenever
`maxThrottleOffset = 1000`, the acceleration-compensation and the
altitude-hold throttle offsets both lie in [-1000, 1000]. -/
theorem maxThrottleOffset_invariant :
    (∀ s, ((flyControlerInit true s).2).maxThrottleOffset = 1000)
    ∧ (∀ op s, (applyOp op s).maxThrottleOffset = s.maxThrottleOffset)
    ∧ (∀ env s, s.maxThrottleOffset = 1000 →
        ((-1000 ≤ (getThrottleOffsetByAcceleration env s).2
          ∧ (getThrottleOffsetByAcceleration env s).2 ≤ 1000)
        ∧ ∀ u, -1000 ≤ (getThrottleOffsetByAltHold env s u).2
          ∧ (getThrottleOffsetByAltHold env s u).2 ≤ 1000)) := by
  refine ⟨?_, ?_, ?_⟩
  · intro s
    simp [flyControlerInit]
  · intro op s
    cases op <;>
      simp [applyOp, setLeaveFlyControlerFlag, setYawCenterPoint, setGyroLimit,
        setAdjustPeriod, setAngularLimit, setAltitudePidOutputLimitation,
        setPidSp, setMotorGain, motorControler]
  · intro env s hmax
    constructor
    · simp only [getThrottleOffsetByAcceleration]
      simp only [setPidSp_maxThrottleOffset, hmax]
      exact LIMIT_MIN_MAX_VALUE_mem _ _ _ (by norm_num)
    · intro u
      cases u
      · simp [getThrottleOffsetByAltHold]
      · have hrw : (getThrottleOffsetByAltHold env s true).2
            = LIMIT_MIN_MAX_VALUE
                (getAltHoldSpeedPidOutput env (getAltHoldAltPidOutput env s)).2
                (-(s.maxThrottleOffset)) s.maxThrottleOffset := by
          simp [getThrottleOffsetByAltHold]
        rw [hrw, hmax]
        exact LIMIT_MIN_MAX_VALUE_mem _ _ _ (by norm_num)

theorem maxThrottleOffset_invariant_witness :
    ((-1000 ≤ (getThrottleOffsetByAcceleration env0 (flyControlerInit true s0).2).2
      ∧ (getThrottleOffsetByAcceleration env0 (flyControlerInit true s0).2).2 ≤ 1000)
    ∧ (-1000 ≤ (getThrottleOffsetByAltHold env0 (flyControlerInit true s0).2 true).2
      ∧ (getThrottleOffsetByAltHold env0 (flyControlerInit true s0).2 true).2 ≤ 1000)) :=
  ⟨(maxThrottleOffset_invariant.2.2 env0 (flyControlerInit true s0).2 (by decide)).1,
   (maxThrottleOffset_invariant.2.2 env0 (flyControlerInit true s0).2 (by decide)).2 true⟩

end FlyControler
